import Mathlib

/-!
Verification of the UBX protocol core of gps_ubx_mqtt.py (Beacon repository):
frame encoder, checksum, frame assembler, NAV-PVT decoder, and the
publish-throttle / stale-heartbeat policy of the main loop.

Bytes are modelled as natural numbers (valid Python byte values are below
256; theorems carry range hypotheses where the source would enforce them).
Python floats are modelled as rationals, time.time() values as rationals.
-/

namespace Beacon

/-- Sync byte one of the UBX protocol, 0xB5 in the source. -/
def SYNC1 : Nat := 0xB5

/-- Sync byte two of the UBX protocol, 0x62 in the source. -/
def SYNC2 : Nat := 0x62

/-- Class byte of NAV messages, CLASS_NAV in the source. -/
def CLASS_NAV : Nat := 0x01

/-- Message id of NAV-PVT, ID_NAV_PVT in the source. -/
def ID_NAV_PVT : Nat := 0x07

/-- Accumulator loop of ubx_checksum: the running 8-bit Fletcher-style sums. -/
def ubx_checksum_aux : List Nat → Nat → Nat → Nat × Nat
  | [], a, b => (a, b)
  | x :: xs, a, b => ubx_checksum_aux xs ((a + x) % 256) ((b + ((a + x) % 256)) % 256)

/-- ubx_checksum from the source: ck_a, ck_b over class, id, length bytes and payload. -/
def ubx_checksum (data : List Nat) : Nat × Nat :=
  ubx_checksum_aux data 0 0

/-- ubx_packet from the source: sync1 sync2 class id len_lo len_hi payload ck_a ck_b.
The length field is little-endian as produced by struct.pack of an unsigned
16-bit value (the source raises for lengths above 65535; theorems assume that bound). -/
def ubx_packet (c i : Nat) (p : List Nat) : List Nat :=
  let hdr := [c, i, p.length % 256, p.length / 256 % 256] ++ p
  let ck := ubx_checksum hdr
  [SYNC1, SYNC2] ++ hdr ++ [ck.1, ck.2]

/-- Indexing a byte list as Python does on a buffer known long enough; 0 out of range. -/
def byteAt (l : List Nat) (k : Nat) : Nat := l.getD k 0

/-- Index of the first occurrence of the two-byte needle 0xB5 0x62, as
bytes.find of the sync pair in the source; none when absent. -/
def findSync : List Nat → Option Nat
  | [] => none
  | [_] => none
  | a :: b :: rest =>
    if a = SYNC1 ∧ b = SYNC2 then some 0
    else (findSync (b :: rest)).map (· + 1)

/-- The while-True body of UbxReader.read_packet operating on the buffer,
with explicit fuel (each iteration consumes at least 8 buffered bytes, so
fuel of buffer length plus one never runs out). Returns the optional
validated (class, id, payload) triple and the new buffer contents. -/
def readLoop : Nat → List Nat → Option (Nat × Nat × List Nat) × List Nat
  | 0, buf => (none, buf)
  | fuel + 1, buf =>
    if buf.length < 8 then (none, buf)
    else
      match findSync buf with
      | none => (none, [])
      | some idx =>
        let buf1 := buf.drop idx
        if buf1.length < 8 then (none, buf1)
        else
          let c := byteAt buf1 2
          let i := byteAt buf1 3
          let len := byteAt buf1 4 + 256 * byteAt buf1 5
          let total := 8 + len
          if buf1.length < total then (none, buf1)
          else
            let pkt := buf1.take total
            let rest := buf1.drop total
            let body := (pkt.drop 2).take (total - 4)
            let ck := ubx_checksum body
            if ck.1 = byteAt pkt (total - 2) ∧ ck.2 = byteAt pkt (total - 1) then
              (some (c, i, (pkt.drop 6).take (total - 8)), rest)
            else
              readLoop fuel rest

/-- UbxReader.read_packet from the source: append the chunk read from the
serial port to the buffer and run the scan loop. -/
def read_packet (chunk buf : List Nat) : Option (Nat × Nat × List Nat) × List Nat :=
  readLoop ((buf ++ chunk).length + 1) (buf ++ chunk)

-- Sanity checks (removed content markers kept as plain examples).
example : ubx_packet 1 7 [] = [181, 98, 1, 7, 0, 0, 8, 25] := by decide
example : read_packet (ubx_packet 1 7 []) [] = (some (1, 7, []), []) := by decide
example : read_packet (ubx_packet 1 7 [5, 6]) [] = (some (1, 7, [5, 6]), []) := by decide
example : read_packet [] [0, 0, 0, 0, 0, 0, 0, 181] = (none, []) := by decide
example : read_packet [] [1, 2, 3] = (none, [1, 2, 3]) := by decide

/-- Little-endian unsigned 16-bit read, struct.unpack_from of a u16 in the source. -/
def readU16 (p : List Nat) (k : Nat) : Nat :=
  byteAt p k + 256 * byteAt p (k + 1)

/-- Little-endian unsigned 32-bit read, struct.unpack_from of a u32 in the source. -/
def readU32 (p : List Nat) (k : Nat) : Nat :=
  byteAt p k + 256 * byteAt p (k + 1) + 65536 * byteAt p (k + 2) +
    16777216 * byteAt p (k + 3)

/-- Two-complement reinterpretation of an unsigned 32-bit value, as
struct.unpack_from of a signed 32-bit value sees the same bytes. -/
def signed32 (u : Nat) : Int :=
  if u < 2147483648 then (u : Int) else (u : Int) - 4294967296

/-- Little-endian signed 32-bit read from the payload. -/
def readI32 (p : List Nat) (k : Nat) : Int :=
  signed32 (readU32 p k)

/-- The navigation fix record built by parse_nav_pvt in the source (its
returned dict); the timestamp field is the time.time() value at decode time,
passed in explicitly. The ISO time string of the dict is not modelled. -/
structure Fix where
  iTOW : Nat
  year : Nat
  month : Nat
  day : Nat
  hour : Nat
  minute : Nat
  sec : Nat
  valid : Nat
  fixType : Nat
  flags : Nat
  numSV : Nat
  lon : ℚ
  lat : ℚ
  speed_mps : ℚ
  speed_kmh : ℚ
  fix_ok : Bool
  time_ok : Bool
  timestamp : ℚ
deriving DecidableEq, Repr

/-- Field extraction of parse_nav_pvt on a payload known to be 92 bytes. -/
def navFix (now : ℚ) (p : List Nat) : Fix :=
  let gSpeed_mps : ℚ := (readI32 p 60 : ℚ) / 1000
  { iTOW := readU32 p 0
    year := readU16 p 4
    month := byteAt p 6
    day := byteAt p 7
    hour := byteAt p 8
    minute := byteAt p 9
    sec := byteAt p 10
    valid := byteAt p 11
    fixType := byteAt p 20
    flags := byteAt p 21
    numSV := byteAt p 23
    lon := (readI32 p 24 : ℚ) / 10000000
    lat := (readI32 p 28 : ℚ) / 10000000
    speed_mps := gSpeed_mps
    speed_kmh := gSpeed_mps * 3.6
    fix_ok := byteAt p 21 &&& 0x01 != 0
    time_ok := byteAt p 11 &&& 0x03 != 0
    timestamp := now }

/-- parse_nav_pvt from the source: a 92-byte length guard that raises
ValueError otherwise (modelled as the error branch; message text shortened),
then little-endian field extraction per the u-blox offsets. -/
def parse_nav_pvt (now : ℚ) (p : List Nat) : Except String Fix :=
  if p.length = 92 then .ok (navFix now p)
  else .error "NAV-PVT payload len != 92"

/-- One conceptual bus output of the main loop: either a full fix publish
(the publish_fix call, which fans out to several topics of the broker) or
the stale-fix heartbeat publish of fix_ok 0. -/
inductive Pub where
  | fixPub (f : Fix)
  | staleHeartbeat
deriving DecidableEq, Repr

/-- Mutable state of the main read loop: the reader buffer, last_pub
(initially 0.0) and last_fix (initially None). -/
structure LoopState where
  buf : List Nat
  lastPub : ℚ
  lastFix : Option Fix
deriving DecidableEq, Repr

/-- Outcome of one main-loop iteration: either a new state with the list of
bus publishes of that iteration, or a crash by an uncaught exception (main
catches only KeyboardInterrupt, so a ValueError from parse_nav_pvt ends the
loop). -/
inductive StepResult where
  | ok (s : LoopState) (out : List Pub)
  | crash (msg : String)
deriving DecidableEq, Repr

/-- One iteration of the while-True loop of main: read a packet (the serial
chunk of this cycle is a parameter), and mirror the source control flow:
an absent packet hits the continue statement before the heartbeat check;
a NAV-PVT packet is parsed (uncaught ValueError on bad length), stored as
last_fix, and published when at least 1.0 s passed since last_pub; finally
the stale heartbeat fires when last_fix exists and is over 5.0 s old.
Both time.time() calls of one iteration are modelled as the same instant. -/
def mainStep (now : ℚ) (chunk : List Nat) (s : LoopState) : StepResult :=
  let r := read_packet chunk s.buf
  match r.1 with
  | none => .ok { s with buf := r.2 } []
  | some (c, i, payload) =>
    if c = CLASS_NAV ∧ i = ID_NAV_PVT then
      match parse_nav_pvt now payload with
      | .error e => .crash e
      | .ok fix =>
        let withFix : LoopState := { buf := r.2, lastPub := s.lastPub, lastFix := some fix }
        let pubCycle : List Pub × LoopState :=
          if 1 ≤ now - withFix.lastPub then
            ([Pub.fixPub fix], { withFix with lastPub := now })
          else ([], withFix)
        let hb : List Pub :=
          match pubCycle.2.lastFix with
          | some f => if 5 < now - f.timestamp then [Pub.staleHeartbeat] else []
          | none => []
        .ok pubCycle.2 (pubCycle.1 ++ hb)
    else
      let hb : List Pub :=
        match s.lastFix with
        | some f => if 5 < now - f.timestamp then [Pub.staleHeartbeat] else []
        | none => []
      .ok { s with buf := r.2 } hb

/-- Feeding a list of serial chunks through successive read_packet calls,
collecting every yielded frame in order together with the final buffer. -/
def feedAll : List (List Nat) → List Nat → List (Nat × Nat × List Nat) × List Nat
  | [], buf => ([], buf)
  | c :: cs, buf =>
    let r := read_packet c buf
    let rs := feedAll cs r.2
    ((match r.1 with | some f => [f] | none => []) ++ rs.1, rs.2)

set_option maxRecDepth 8000 in
example :
    mainStep 100 (ubx_packet 1 7 (List.replicate 91 0)) { buf := [], lastPub := 0, lastFix := none } =
      .crash "NAV-PVT payload len != 92" := by rfl

example :
    mainStep 100 [] { buf := [], lastPub := 6, lastFix := some (navFix 0 (List.replicate 92 0)) } =
      .ok { buf := [], lastPub := 6, lastFix := some (navFix 0 (List.replicate 92 0)) } [] := by
  rfl

/-! Core lemmas about the checksum and the frame scan loop. -/

theorem ubx_checksum_aux_fst (xs : List Nat) :
    ∀ a b : Nat, a < 256 → (ubx_checksum_aux xs a b).1 = (a + xs.sum) % 256 := by
  induction xs with
  | nil =>
    intro a b ha
    simp [ubx_checksum_aux, Nat.mod_eq_of_lt ha]
  | cons x xs ih =>
    intro a b ha
    rw [ubx_checksum_aux, ih _ _ (Nat.mod_lt _ (by omega))]
    simp [List.sum_cons]
    omega

theorem ubx_checksum_fst (l : List Nat) : (ubx_checksum l).1 = l.sum % 256 := by
  simpa using ubx_checksum_aux_fst l 0 0 (by omega)

theorem sum_set_add (l : List Nat) :
    ∀ m v : Nat, m < l.length → (l.set m v).sum + l.getD m 0 = l.sum + v := by
  induction l with
  | nil => intro m v h; simp at h
  | cons x xs ih =>
    intro m v h
    cases m with
    | zero => simp [List.set]; omega
    | succ m =>
      have hm : m < xs.length := by simpa using h
      have := ih m v hm
      simp only [List.set_cons_succ, List.getD_cons_succ, List.sum_cons]
      omega

theorem byteAt_append_len (X : List Nat) (y : Nat) (t : List Nat) :
    byteAt (X ++ y :: t) X.length = y := by
  induction X with
  | nil => rfl
  | cons x xs ih => simpa [byteAt, List.getD_cons_succ] using ih

theorem byteAt_append_len_succ (X : List Nat) (y z : Nat) (t : List Nat) :
    byteAt (X ++ y :: z :: t) (X.length + 1) = z := by
  induction X with
  | nil => rfl
  | cons x xs ih => simpa [byteAt, List.getD_cons_succ] using ih

theorem ubx_packet_length (c i : Nat) (p : List Nat) :
    (ubx_packet c i p).length = 8 + p.length := by
  simp [ubx_packet]
  omega

theorem findSync_at_sync (t : List Nat) : findSync (SYNC1 :: SYNC2 :: t) = some 0 := by
  simp [findSync]

/-- A well-formed encoded frame at the front of the buffer is recognized in
one scan iteration: its triple is yielded and exactly its bytes consumed. -/
theorem readLoop_packet (fuel c i : Nat) (p rest : List Nat) (hp : p.length ≤ 65535) :
    readLoop (fuel + 1) (ubx_packet c i p ++ rest) = (some (c, i, p), rest) := by
  have hB : ubx_packet c i p ++ rest =
      SYNC1 :: SYNC2 :: c :: i :: (p.length % 256) :: (p.length / 256 % 256) ::
        (p ++ (ubx_checksum ([c, i, p.length % 256, p.length / 256 % 256] ++ p)).1 ::
          (ubx_checksum ([c, i, p.length % 256, p.length / 256 % 256] ++ p)).2 :: rest) := by
    simp [ubx_packet]
  have hlen : (ubx_packet c i p ++ rest).length = 8 + p.length + rest.length := by
    simp [ubx_packet_length]
  have hfind : findSync (ubx_packet c i p ++ rest) = some 0 := by
    rw [hB]; exact findSync_at_sync _
  have h2 : byteAt (ubx_packet c i p ++ rest) 2 = c := by rw [hB]; rfl
  have h3 : byteAt (ubx_packet c i p ++ rest) 3 = i := by rw [hB]; rfl
  have h4 : byteAt (ubx_packet c i p ++ rest) 4 = p.length % 256 := by rw [hB]; rfl
  have h5 : byteAt (ubx_packet c i p ++ rest) 5 = p.length / 256 % 256 := by rw [hB]; rfl
  have hlf : p.length % 256 + 256 * (p.length / 256 % 256) = p.length := by omega
  have htake : (ubx_packet c i p ++ rest).take (8 + p.length) = ubx_packet c i p :=
    List.take_left' (ubx_packet_length c i p)
  have hdropB : (ubx_packet c i p ++ rest).drop (8 + p.length) = rest :=
    List.drop_left' (ubx_packet_length c i p)
  have h84 : 8 + p.length - 4 = 4 + p.length := by omega
  have h88 : 8 + p.length - 8 = p.length := by omega
  have h82 : 8 + p.length - 2 = 6 + p.length := by omega
  have h81 : 8 + p.length - 1 = 7 + p.length := by omega
  have hdrop2 : (ubx_packet c i p).drop 2 =
      ([c, i, p.length % 256, p.length / 256 % 256] ++ p) ++
        [(ubx_checksum ([c, i, p.length % 256, p.length / 256 % 256] ++ p)).1,
         (ubx_checksum ([c, i, p.length % 256, p.length / 256 % 256] ++ p)).2] := by
    simp [ubx_packet]
  have hbody : ((ubx_packet c i p).drop 2).take (4 + p.length) =
      [c, i, p.length % 256, p.length / 256 % 256] ++ p := by
    rw [hdrop2]
    exact List.take_left' (by simp; omega)
  have hXsh : ubx_packet c i p =
      ([SYNC1, SYNC2] ++ ([c, i, p.length % 256, p.length / 256 % 256] ++ p)) ++
        (ubx_checksum ([c, i, p.length % 256, p.length / 256 % 256] ++ p)).1 ::
        (ubx_checksum ([c, i, p.length % 256, p.length / 256 % 256] ++ p)).2 :: [] := by
    simp [ubx_packet]
  have hXlen : ([SYNC1, SYNC2] ++ ([c, i, p.length % 256, p.length / 256 % 256] ++ p)).length
      = 6 + p.length := by simp; omega
  have hcka : byteAt (ubx_packet c i p) (6 + p.length) =
      (ubx_checksum ([c, i, p.length % 256, p.length / 256 % 256] ++ p)).1 := by
    rw [hXsh, ← hXlen]
    exact byteAt_append_len _ _ _
  have hckb : byteAt (ubx_packet c i p) (7 + p.length) =
      (ubx_checksum ([c, i, p.length % 256, p.length / 256 % 256] ++ p)).2 := by
    have h7 : 7 + p.length = ([SYNC1, SYNC2] ++ ([c, i, p.length % 256, p.length / 256 % 256] ++ p)).length + 1 := by
      rw [hXlen]; omega
    rw [hXsh, h7]
    exact byteAt_append_len_succ _ _ _ _
  have hdrop6 : (ubx_packet c i p).drop 6 =
      p ++ [(ubx_checksum ([c, i, p.length % 256, p.length / 256 % 256] ++ p)).1,
            (ubx_checksum ([c, i, p.length % 256, p.length / 256 % 256] ++ p)).2] := by
    simp [ubx_packet]
  have hpay : ((ubx_packet c i p).drop 6).take p.length = p := by
    rw [hdrop6]
    exact List.take_left' rfl
  rw [readLoop, if_neg (by omega), hfind]
  dsimp only
  rw [List.drop_zero, if_neg (by omega), h2, h3, h4, h5, hlf,
    if_neg (by omega), htake, hdropB, h84, h82, h81, h88, hbody, hcka, hckb, hpay,
    if_pos ⟨rfl, rfl⟩]

/-- A buffer below eight bytes is retained untouched and yields nothing. -/
theorem readLoop_short (fuel : Nat) (buf : List Nat) (h : buf.length < 8) :
    readLoop (fuel + 1) buf = (none, buf) := by
  rw [readLoop, if_pos h]

/-- A buffer of at least eight bytes with no sync pair anywhere is dropped
entirely, yielding nothing. -/
theorem readLoop_noSync (fuel : Nat) (buf : List Nat) (h8 : 8 ≤ buf.length)
    (hfind : findSync buf = none) : readLoop (fuel + 1) buf = (none, []) := by
  rw [readLoop, if_neg (by omega), hfind]

/-- A strict front part of a single encoded frame is always retained
untouched: if short it waits for more input, otherwise the sync pair is at
the front and the declared total length exceeds the bytes present. -/
theorem readLoop_takePacket (fuel c i k : Nat) (p : List Nat)
    (hp : p.length ≤ 65535) (hk : k < (ubx_packet c i p).length) :
    readLoop (fuel + 1) ((ubx_packet c i p).take k) = (none, (ubx_packet c i p).take k) := by
  have hkl : ((ubx_packet c i p).take k).length = k := by
    simp [List.length_take]
    omega
  by_cases h8 : k < 8
  · exact readLoop_short _ _ (by omega)
  · obtain ⟨m, rfl⟩ : ∃ m, k = m + 8 := ⟨k - 8, by omega⟩
    have hB : (ubx_packet c i p).take (m + 8) =
        SYNC1 :: SYNC2 :: c :: i :: (p.length % 256) :: (p.length / 256 % 256) ::
          ((p ++ [(ubx_checksum ([c, i, p.length % 256, p.length / 256 % 256] ++ p)).1,
                  (ubx_checksum ([c, i, p.length % 256, p.length / 256 % 256] ++ p)).2]).take
            (m + 2)) := by
      simp [ubx_packet, List.take_succ_cons]
    have hfind : findSync ((ubx_packet c i p).take (m + 8)) = some 0 := by
      rw [hB]; exact findSync_at_sync _
    have h4 : byteAt ((ubx_packet c i p).take (m + 8)) 4 = p.length % 256 := by rw [hB]; rfl
    have h5 : byteAt ((ubx_packet c i p).take (m + 8)) 5 = p.length / 256 % 256 := by rw [hB]; rfl
    have hlf : p.length % 256 + 256 * (p.length / 256 % 256) = p.length := by omega
    have hplen := ubx_packet_length c i p
    rw [readLoop, if_neg (by omega), hfind]
    dsimp only
    rw [List.drop_zero, if_neg (by omega), h4, h5, hlf, if_pos (by omega)]

/-- First checksum byte of an encoded frame, as stored in its trailer. -/
def pktCkA (c i : Nat) (p : List Nat) : Nat :=
  (ubx_checksum ([c, i, p.length % 256, p.length / 256 % 256] ++ p)).1

/-- Second checksum byte of an encoded frame, as stored in its trailer. -/
def pktCkB (c i : Nat) (p : List Nat) : Nat :=
  (ubx_checksum ([c, i, p.length % 256, p.length / 256 % 256] ++ p)).2

theorem ubx_packet_cons (c i : Nat) (p : List Nat) :
    ubx_packet c i p =
      SYNC1 :: SYNC2 :: c :: i :: (p.length % 256) :: (p.length / 256 % 256) ::
        (p ++ [pktCkA c i p, pktCkB c i p]) := by
  simp [ubx_packet, pktCkA, pktCkB]

theorem byteAt_packet_ckA (c i : Nat) (p : List Nat) :
    byteAt (ubx_packet c i p) (6 + p.length) = pktCkA c i p := by
  have hX : ubx_packet c i p =
      ([SYNC1, SYNC2, c, i, p.length % 256, p.length / 256 % 256] ++ p) ++
        pktCkA c i p :: pktCkB c i p :: [] := by
    rw [ubx_packet_cons]; simp
  have hXL : ([SYNC1, SYNC2, c, i, p.length % 256, p.length / 256 % 256] ++ p).length
      = 6 + p.length := by simp; omega
  rw [hX, ← hXL]
  exact byteAt_append_len _ _ _

theorem byteAt_packet_ckB (c i : Nat) (p : List Nat) :
    byteAt (ubx_packet c i p) (7 + p.length) = pktCkB c i p := by
  have hX : ubx_packet c i p =
      ([SYNC1, SYNC2, c, i, p.length % 256, p.length / 256 % 256] ++ p) ++
        pktCkA c i p :: pktCkB c i p :: [] := by
    rw [ubx_packet_cons]; simp
  have hXL : ([SYNC1, SYNC2, c, i, p.length % 256, p.length / 256 % 256] ++ p).length
      = 6 + p.length := by simp; omega
  have h7 : 7 + p.length =
      ([SYNC1, SYNC2, c, i, p.length % 256, p.length / 256 % 256] ++ p).length + 1 := by
    rw [hXL]; omega
  rw [hX, h7]
  exact byteAt_append_len_succ _ _ _ _

theorem byteAt_packet_payload (c i : Nat) (p : List Nat) (m : Nat) (hm : m < p.length) :
    byteAt (ubx_packet c i p) (m + 6) = p.getD m 0 := by
  rw [ubx_packet_cons]
  show byteAt (p ++ [pktCkA c i p, pktCkB c i p]) m = p.getD m 0
  exact List.getD_append _ _ _ _ hm

/-- Flipping one byte in the payload or checksum region of an encoded frame
makes the checksum comparison fail, so the scan silently consumes the
corrupted candidate and continues with the remaining buffer. -/
theorem readLoop_flip (fuel c i : Nat) (p : List Nat) (m v : Nat) (rest : List Nat)
    (hp : p.length ≤ 65535) (hpb : ∀ x ∈ p, x ≤ 255)
    (hm : m < p.length + 2) (hv : v ≤ 255)
    (hne : v ≠ byteAt (ubx_packet c i p) (m + 6)) :
    readLoop (fuel + 1) ((ubx_packet c i p).set (m + 6) v ++ rest) = readLoop fuel rest := by
  have hset : (ubx_packet c i p).set (m + 6) v =
      SYNC1 :: SYNC2 :: c :: i :: (p.length % 256) :: (p.length / 256 % 256) ::
        ((p ++ [pktCkA c i p, pktCkB c i p]).set m v) := by
    rw [ubx_packet_cons]
    simp [List.set_cons_succ]
  have hlenset : ((ubx_packet c i p).set (m + 6) v).length = 8 + p.length := by
    rw [List.length_set, ubx_packet_length]
  have hB : (ubx_packet c i p).set (m + 6) v ++ rest =
      SYNC1 :: SYNC2 :: c :: i :: (p.length % 256) :: (p.length / 256 % 256) ::
        (((p ++ [pktCkA c i p, pktCkB c i p]).set m v) ++ rest) := by
    rw [hset]; simp
  have hBlen : ((ubx_packet c i p).set (m + 6) v ++ rest).length
      = 8 + p.length + rest.length := by
    simp [hlenset]
  have hfind : findSync ((ubx_packet c i p).set (m + 6) v ++ rest) = some 0 := by
    rw [hB]; exact findSync_at_sync _
  have h4 : byteAt ((ubx_packet c i p).set (m + 6) v ++ rest) 4 = p.length % 256 := by
    rw [hB]; rfl
  have h5 : byteAt ((ubx_packet c i p).set (m + 6) v ++ rest) 5 = p.length / 256 % 256 := by
    rw [hB]; rfl
  have hlf : p.length % 256 + 256 * (p.length / 256 % 256) = p.length := by omega
  have htake : ((ubx_packet c i p).set (m + 6) v ++ rest).take (8 + p.length)
      = (ubx_packet c i p).set (m + 6) v := List.take_left' hlenset
  have hdropB : ((ubx_packet c i p).set (m + 6) v ++ rest).drop (8 + p.length)
      = rest := List.drop_left' hlenset
  have h84 : 8 + p.length - 4 = 4 + p.length := by omega
  have h82 : 8 + p.length - 2 = 6 + p.length := by omega
  have h81 : 8 + p.length - 1 = 7 + p.length := by omega
  rw [readLoop, if_neg (by omega), hfind]
  dsimp only
  rw [List.drop_zero, if_neg (by omega), h4, h5, hlf, if_neg (by omega),
    htake, hdropB, h84, h82, h81]
  rcases (by omega : m < p.length ∨ m = p.length ∨ m = p.length + 1) with hc | hc | hc
  · -- payload byte flipped: first checksum byte of the recomputation differs
    have hsetp : (p ++ [pktCkA c i p, pktCkB c i p]).set m v
        = p.set m v ++ [pktCkA c i p, pktCkB c i p] := List.set_append_left _ _ hc
    have hdrop2 : ((ubx_packet c i p).set (m + 6) v).drop 2 =
        ([c, i, p.length % 256, p.length / 256 % 256] ++ p.set m v) ++
          [pktCkA c i p, pktCkB c i p] := by
      rw [hset, hsetp]; simp
    have hbody : (((ubx_packet c i p).set (m + 6) v).drop 2).take (4 + p.length) =
        [c, i, p.length % 256, p.length / 256 % 256] ++ p.set m v := by
      rw [hdrop2]
      exact List.take_left' (by simp [List.length_set]; omega)
    have hstored : byteAt ((ubx_packet c i p).set (m + 6) v) (6 + p.length)
        = pktCkA c i p := by
      have hX : (ubx_packet c i p).set (m + 6) v =
          ([SYNC1, SYNC2, c, i, p.length % 256, p.length / 256 % 256] ++ p.set m v) ++
            pktCkA c i p :: pktCkB c i p :: [] := by
        rw [hset, hsetp]; simp
      have hXL : ([SYNC1, SYNC2, c, i, p.length % 256, p.length / 256 % 256] ++
          p.set m v).length = 6 + p.length := by simp [List.length_set]; omega
      rw [hX, ← hXL]
      exact byteAt_append_len _ _ _
    rw [hbody, hstored]
    have hold : p.getD m 0 ≤ 255 := by
      have : p.getD m 0 ∈ p := by
        rw [List.getD_eq_getElem _ _ hc]
        exact List.getElem_mem hc
      exact hpb _ this
    have hnv : v ≠ p.getD m 0 := by
      rw [byteAt_packet_payload c i p m hc] at hne
      exact hne
    have hss := sum_set_add p m v hc
    rw [if_neg ?_]
    intro hcontra
    rcases hcontra with ⟨h1, _⟩
    rw [ubx_checksum_fst] at h1
    have hA : pktCkA c i p =
        ([c, i, p.length % 256, p.length / 256 % 256] ++ p).sum % 256 := by
      rw [pktCkA, ubx_checksum_fst]
    rw [hA] at h1
    simp [List.sum_append] at h1
    omega
  · -- first checksum byte flipped: recomputed first byte no longer matches
    subst hc
    have hsetp : (p ++ [pktCkA c i p, pktCkB c i p]).set p.length v
        = p ++ [v, pktCkB c i p] := by
      rw [List.set_append_right _ _ (le_refl p.length)]
      simp
    have hdrop2 : ((ubx_packet c i p).set (p.length + 6) v).drop 2 =
        ([c, i, p.length % 256, p.length / 256 % 256] ++ p) ++ [v, pktCkB c i p] := by
      rw [hset, hsetp]; simp
    have hbody : (((ubx_packet c i p).set (p.length + 6) v).drop 2).take (4 + p.length) =
        [c, i, p.length % 256, p.length / 256 % 256] ++ p := by
      rw [hdrop2]
      exact List.take_left' (by simp; omega)
    have hstored : byteAt ((ubx_packet c i p).set (p.length + 6) v) (6 + p.length)
        = v := by
      have hX : (ubx_packet c i p).set (p.length + 6) v =
          ([SYNC1, SYNC2, c, i, p.length % 256, p.length / 256 % 256] ++ p) ++
            v :: pktCkB c i p :: [] := by
        rw [hset, hsetp]; simp
      have hXL : ([SYNC1, SYNC2, c, i, p.length % 256, p.length / 256 % 256] ++
          p).length = 6 + p.length := by simp; omega
      rw [hX, ← hXL]
      exact byteAt_append_len _ _ _
    rw [hbody, hstored]
    have hnv : v ≠ pktCkA c i p := by
      rw [show p.length + 6 = 6 + p.length by omega, byteAt_packet_ckA] at hne
      exact hne
    rw [if_neg ?_]
    intro hcontra
    rcases hcontra with ⟨h1, _⟩
    exact hnv (by rw [← h1]; rfl)
  · -- second checksum byte flipped: recomputed second byte no longer matches
    subst hc
    have hsetp : (p ++ [pktCkA c i p, pktCkB c i p]).set (p.length + 1) v
        = p ++ [pktCkA c i p, v] := by
      rw [List.set_append_right _ _ (by omega)]
      simp
    have hdrop2 : ((ubx_packet c i p).set (p.length + 1 + 6) v).drop 2 =
        ([c, i, p.length % 256, p.length / 256 % 256] ++ p) ++ [pktCkA c i p, v] := by
      rw [hset, hsetp]; simp
    have hbody : (((ubx_packet c i p).set (p.length + 1 + 6) v).drop 2).take
        (4 + p.length) = [c, i, p.length % 256, p.length / 256 % 256] ++ p := by
      rw [hdrop2]
      exact List.take_left' (by simp; omega)
    have hstored : byteAt ((ubx_packet c i p).set (p.length + 1 + 6) v) (7 + p.length)
        = v := by
      have hX : (ubx_packet c i p).set (p.length + 1 + 6) v =
          ([SYNC1, SYNC2, c, i, p.length % 256, p.length / 256 % 256] ++ p) ++
            pktCkA c i p :: v :: [] := by
        rw [hset, hsetp]; simp
      have hXL : ([SYNC1, SYNC2, c, i, p.length % 256, p.length / 256 % 256] ++
          p).length = 6 + p.length := by simp; omega
      have h7 : 7 + p.length = ([SYNC1, SYNC2, c, i, p.length % 256,
          p.length / 256 % 256] ++ p).length + 1 := by rw [hXL]; omega
      rw [hX, h7]
      exact byteAt_append_len_succ _ _ _ _
    rw [hbody, hstored]
    have hnv : v ≠ pktCkB c i p := by
      rw [show p.length + 1 + 6 = 7 + p.length by omega, byteAt_packet_ckB] at hne
      exact hne
    rw [if_neg ?_]
    intro hcontra
    rcases hcontra with ⟨_, h2⟩
    exact hnv (by rw [← h2]; rfl)

/-- Feeding only empty chunks from an empty buffer yields nothing. -/
theorem feedAll_allNil : ∀ cs : List (List Nat), cs.flatten = [] → feedAll cs [] = ([], []) := by
  intro cs
  induction cs with
  | nil => intro _; rfl
  | cons d cs ih =>
    intro h
    obtain ⟨hd, hcs⟩ : d = [] ∧ cs.flatten = [] := by simpa using h
    subst hd
    rw [feedAll]
    have hr : read_packet [] [] = (none, []) := rfl
    rw [hr, ih hcs]
    rfl

/-- Invariant of chunked feeding of one encoded frame: starting from a strict
front part of the frame, feeding the rest in any chunking yields exactly the
frame triple and ends with an empty buffer. -/
theorem feedAll_packet (c i : Nat) (p : List Nat) (hp : p.length ≤ 65535) :
    ∀ (cs : List (List Nat)) (k : Nat), k < (ubx_packet c i p).length →
      (ubx_packet c i p).take k ++ cs.flatten = ubx_packet c i p →
      feedAll cs ((ubx_packet c i p).take k) = ([(c, i, p)], []) := by
  intro cs
  induction cs with
  | nil =>
    intro k hk h
    exfalso
    rw [List.flatten_nil, List.append_nil] at h
    have := congrArg List.length h
    simp [List.length_take] at this
    omega
  | cons d cs ih =>
    intro k hk h
    have hTk : ((ubx_packet c i p).take k).length = k := by
      simp [List.length_take]; omega
    rw [List.flatten_cons, ← List.append_assoc] at h
    have hlens := congrArg List.length h
    simp only [List.length_append, hTk, ubx_packet_length] at hlens
    rw [feedAll]
    have hfuel : (((ubx_packet c i p).take k) ++ d).length = k + d.length := by
      simp [hTk]
    have hPlen := ubx_packet_length c i p
    rcases (by omega : k + d.length < (ubx_packet c i p).length ∨
        k + d.length = (ubx_packet c i p).length) with hcase | hcase
    · have hTd : (ubx_packet c i p).take (k + d.length) = (ubx_packet c i p).take k ++ d := by
        conv_lhs => rw [← h]
        exact List.take_left' hfuel
      have hr : read_packet d ((ubx_packet c i p).take k) =
          (none, (ubx_packet c i p).take (k + d.length)) := by
        show readLoop ((((ubx_packet c i p).take k) ++ d).length + 1)
            (((ubx_packet c i p).take k) ++ d) = _
        rw [hfuel, ← hTd]
        exact readLoop_takePacket _ c i _ p hp hcase
      rw [hr]
      have hnext := ih (k + d.length) hcase (by rw [hTd]; exact h)
      rw [hnext]
      rfl
    · have hflat : cs.flatten = [] := by
        have := congrArg List.length h
        simp only [List.length_append, hTk, ubx_packet_length] at this
        have hfl : cs.flatten.length = 0 := by omega
        exact List.length_eq_zero.mp hfl
      have hTd : (ubx_packet c i p).take k ++ d = ubx_packet c i p := by
        rw [hflat, List.append_nil] at h
        exact h
      have hr : read_packet d ((ubx_packet c i p).take k) = (some (c, i, p), []) := by
        show readLoop ((((ubx_packet c i p).take k) ++ d).length + 1)
            (((ubx_packet c i p).take k) ++ d) = _
        rw [hTd]
        have := readLoop_packet ((ubx_packet c i p).length) c i p [] hp
        rw [List.append_nil] at this
        exact this
      rw [hr, feedAll_allNil cs hflat]
      rfl

/-- Bytes of a little-endian 16-bit field, least significant first. -/
def leb2 (n : Nat) : List Nat := [n % 256, n / 256 % 256]

/-- Bytes of a little-endian 32-bit field, least significant first. -/
def leb4 (n : Nat) : List Nat :=
  [n % 256, n / 256 % 256, n / 65536 % 256, n / 16777216 % 256]

/-- Unsigned 32-bit two-complement representation of a signed value. -/
def toU32 (z : Int) : Nat := (z % 4294967296).toNat

/-- Modelled from the spec: the NAV-PVT payload field layout of the section
4.2 table (iTOW u32 at 0; year u16 at 4; month, day, hour, minute, second,
valid u8 at 6 to 11; fixType at 20; flags at 21; numSV at 23; lon i32 at 24;
lat i32 at 28; gSpeed i32 at 60; every other byte zero). This is the
spec-side construction against which the source decoder is compared. -/
def navPvtPayloadSpec (iTOW year month day hour minute sec valid fixType flags numSV : Nat)
    (lon lat gSpeed : Int) : List Nat :=
  leb4 iTOW ++ (leb2 year ++ ([month, day, hour, minute, sec, valid] ++
    (List.replicate 8 0 ++ ([fixType, flags, 0, numSV] ++ (leb4 (toU32 lon) ++
    (leb4 (toU32 lat) ++ (List.replicate 28 0 ++ (leb4 (toU32 gSpeed) ++
    List.replicate 28 0))))))))

theorem recompose32 (n : Nat) (h : n < 4294967296) :
    n % 256 + 256 * (n / 256 % 256) + 65536 * (n / 65536 % 256) +
      16777216 * (n / 16777216 % 256) = n := by
  omega

theorem toU32_lt (z : Int) : toU32 z < 4294967296 := by
  unfold toU32
  omega

theorem signed32_toU32 (z : Int) (h1 : -2147483648 ≤ z) (h2 : z < 2147483648) :
    signed32 (toU32 z) = z := by
  unfold signed32 toU32
  split <;> omega

/-! Claim theorems and witnesses. -/

/-- Skipping a whole front segment when indexing past it. -/
theorem byteAt_skip (X t : List Nat) (k : Nat) :
    byteAt (X ++ t) (X.length + k) = byteAt t k := by
  unfold byteAt
  rw [List.getD_append_right _ _ _ _ (by omega)]
  congr 1
  omega

theorem byteAt_cons_succ (a : Nat) (t : List Nat) (k : Nat) :
    byteAt (a :: t) (k + 1) = byteAt t k := rfl

theorem byteAt_cons_zero (a : Nat) (t : List Nat) : byteAt (a :: t) 0 = a := rfl

theorem byteAt_leb4_skip (n : Nat) (t : List Nat) (k : Nat) :
    byteAt (leb4 n ++ t) (k + 4) = byteAt t k := by
  rw [show k + 4 = (leb4 n).length + k by simp [leb4]; omega]
  exact byteAt_skip _ _ _

theorem byteAt_leb2_skip (n : Nat) (t : List Nat) (k : Nat) :
    byteAt (leb2 n ++ t) (k + 2) = byteAt t k := by
  rw [show k + 2 = (leb2 n).length + k by simp [leb2]; omega]
  exact byteAt_skip _ _ _

theorem byteAt_rep8_skip (x : Nat) (t : List Nat) (k : Nat) :
    byteAt (List.replicate 8 x ++ t) (k + 8) = byteAt t k := by
  rw [show k + 8 = (List.replicate 8 x).length + k by simp; omega]
  exact byteAt_skip _ _ _

theorem byteAt_rep28_skip (x : Nat) (t : List Nat) (k : Nat) :
    byteAt (List.replicate 28 x ++ t) (k + 28) = byteAt t k := by
  rw [show k + 28 = (List.replicate 28 x).length + k by simp; omega]
  exact byteAt_skip _ _ _

theorem byteAt_leb4_at0 (n : Nat) (t : List Nat) : byteAt (leb4 n ++ t) 0 = n % 256 := rfl

theorem byteAt_leb4_at1 (n : Nat) (t : List Nat) :
    byteAt (leb4 n ++ t) 1 = n / 256 % 256 := rfl

theorem byteAt_leb4_at2 (n : Nat) (t : List Nat) :
    byteAt (leb4 n ++ t) 2 = n / 65536 % 256 := rfl

theorem byteAt_leb4_at3 (n : Nat) (t : List Nat) :
    byteAt (leb4 n ++ t) 3 = n / 16777216 % 256 := rfl

theorem byteAt_leb2_at0 (n : Nat) (t : List Nat) : byteAt (leb2 n ++ t) 0 = n % 256 := rfl

theorem byteAt_leb2_at1 (n : Nat) (t : List Nat) :
    byteAt (leb2 n ++ t) 1 = n / 256 % 256 := rfl

/-- C2: for every NAV-PVT payload carrying given field values at the
specified little-endian offsets, the decoder extracts exactly those fields
with the specified scales: lon and lat are the signed 32-bit values divided
by ten million, speed is the signed 32-bit value at offset 60 divided by
1000, speed_kmh is speed_mps times 3.6, fix_ok is flags AND 1 nonzero,
time_ok is valid AND 3 nonzero. -/
theorem claim_C2_nav_pvt_decode (now : ℚ)
    (iTOW year month day hour minute sec valid fixType flags numSV : Nat)
    (lon lat gSpeed : Int)
    (hiTOW : iTOW < 4294967296) (hyear : year < 65536)
    (hlon1 : -2147483648 ≤ lon) (hlon2 : lon < 2147483648)
    (hlat1 : -2147483648 ≤ lat) (hlat2 : lat < 2147483648)
    (hsp1 : -2147483648 ≤ gSpeed) (hsp2 : gSpeed < 2147483648) :
    parse_nav_pvt now (navPvtPayloadSpec iTOW year month day hour minute sec valid
        fixType flags numSV lon lat gSpeed) =
      .ok { iTOW := iTOW, year := year, month := month, day := day, hour := hour,
            minute := minute, sec := sec, valid := valid, fixType := fixType,
            flags := flags, numSV := numSV,
            lon := (lon : ℚ) / 10000000, lat := (lat : ℚ) / 10000000,
            speed_mps := (gSpeed : ℚ) / 1000,
            speed_kmh := (gSpeed : ℚ) / 1000 * 3.6,
            fix_ok := flags &&& 1 != 0, time_ok := valid &&& 3 != 0,
            timestamp := now } := by
  have hlen : (navPvtPayloadSpec iTOW year month day hour minute sec valid
      fixType flags numSV lon lat gSpeed).length = 92 := by
    simp [navPvtPayloadSpec, leb4, leb2]
  have hU0 : readU32 (navPvtPayloadSpec iTOW year month day hour minute sec valid
      fixType flags numSV lon lat gSpeed) 0 = iTOW := by
    simp [readU32, navPvtPayloadSpec, byteAt_leb4_at0, byteAt_leb4_at1,
      byteAt_leb4_at2, byteAt_leb4_at3]
    omega
  have hU16 : readU16 (navPvtPayloadSpec iTOW year month day hour minute sec valid
      fixType flags numSV lon lat gSpeed) 4 = year := by
    simp [readU16, navPvtPayloadSpec, byteAt_leb4_skip, byteAt_leb2_at0, byteAt_leb2_at1]
    omega
  have hU24 : readU32 (navPvtPayloadSpec iTOW year month day hour minute sec valid
      fixType flags numSV lon lat gSpeed) 24 = toU32 lon := by
    simp [readU32, navPvtPayloadSpec, byteAt_leb4_skip, byteAt_leb2_skip,
      byteAt_rep8_skip, byteAt_cons_succ, byteAt_cons_zero,
      byteAt_leb4_at0, byteAt_leb4_at1, byteAt_leb4_at2, byteAt_leb4_at3]
    have := toU32_lt lon
    omega
  have hU28 : readU32 (navPvtPayloadSpec iTOW year month day hour minute sec valid
      fixType flags numSV lon lat gSpeed) 28 = toU32 lat := by
    simp [readU32, navPvtPayloadSpec, byteAt_leb4_skip, byteAt_leb2_skip,
      byteAt_rep8_skip, byteAt_cons_succ, byteAt_cons_zero,
      byteAt_leb4_at0, byteAt_leb4_at1, byteAt_leb4_at2, byteAt_leb4_at3]
    have := toU32_lt lat
    omega
  have hU60 : readU32 (navPvtPayloadSpec iTOW year month day hour minute sec valid
      fixType flags numSV lon lat gSpeed) 60 = toU32 gSpeed := by
    simp [readU32, navPvtPayloadSpec, byteAt_leb4_skip, byteAt_leb2_skip,
      byteAt_rep8_skip, byteAt_rep28_skip, byteAt_cons_succ, byteAt_cons_zero,
      byteAt_leb4_at0, byteAt_leb4_at1, byteAt_leb4_at2, byteAt_leb4_at3]
    have := toU32_lt gSpeed
    omega
  have hI24 : readI32 (navPvtPayloadSpec iTOW year month day hour minute sec valid
      fixType flags numSV lon lat gSpeed) 24 = lon := by
    rw [readI32, hU24]
    exact signed32_toU32 lon hlon1 hlon2
  have hI28 : readI32 (navPvtPayloadSpec iTOW year month day hour minute sec valid
      fixType flags numSV lon lat gSpeed) 28 = lat := by
    rw [readI32, hU28]
    exact signed32_toU32 lat hlat1 hlat2
  have hI60 : readI32 (navPvtPayloadSpec iTOW year month day hour minute sec valid
      fixType flags numSV lon lat gSpeed) 60 = gSpeed := by
    rw [readI32, hU60]
    exact signed32_toU32 gSpeed hsp1 hsp2
  have hb6 : byteAt (navPvtPayloadSpec iTOW year month day hour minute sec valid
      fixType flags numSV lon lat gSpeed) 6 = month := by
    simp [navPvtPayloadSpec, byteAt_leb4_skip, byteAt_leb2_skip, byteAt_cons_zero]
  have hb7 : byteAt (navPvtPayloadSpec iTOW year month day hour minute sec valid
      fixType flags numSV lon lat gSpeed) 7 = day := by
    simp [navPvtPayloadSpec, byteAt_leb4_skip, byteAt_leb2_skip, byteAt_cons_succ,
      byteAt_cons_zero]
  have hb8 : byteAt (navPvtPayloadSpec iTOW year month day hour minute sec valid
      fixType flags numSV lon lat gSpeed) 8 = hour := by
    simp [navPvtPayloadSpec, byteAt_leb4_skip, byteAt_leb2_skip, byteAt_cons_succ,
      byteAt_cons_zero]
  have hb9 : byteAt (navPvtPayloadSpec iTOW year month day hour minute sec valid
      fixType flags numSV lon lat gSpeed) 9 = minute := by
    simp [navPvtPayloadSpec, byteAt_leb4_skip, byteAt_leb2_skip, byteAt_cons_succ,
      byteAt_cons_zero]
  have hb10 : byteAt (navPvtPayloadSpec iTOW year month day hour minute sec valid
      fixType flags numSV lon lat gSpeed) 10 = sec := by
    simp [navPvtPayloadSpec, byteAt_leb4_skip, byteAt_leb2_skip, byteAt_cons_succ,
      byteAt_cons_zero]
  have hb11 : byteAt (navPvtPayloadSpec iTOW year month day hour minute sec valid
      fixType flags numSV lon lat gSpeed) 11 = valid := by
    simp [navPvtPayloadSpec, byteAt_leb4_skip, byteAt_leb2_skip, byteAt_cons_succ,
      byteAt_cons_zero]
  have hb20 : byteAt (navPvtPayloadSpec iTOW year month day hour minute sec valid
      fixType flags numSV lon lat gSpeed) 20 = fixType := by
    simp [navPvtPayloadSpec, byteAt_leb4_skip, byteAt_leb2_skip, byteAt_rep8_skip,
      byteAt_cons_succ, byteAt_cons_zero]
  have hb21 : byteAt (navPvtPayloadSpec iTOW year month day hour minute sec valid
      fixType flags numSV lon lat gSpeed) 21 = flags := by
    simp [navPvtPayloadSpec, byteAt_leb4_skip, byteAt_leb2_skip, byteAt_rep8_skip,
      byteAt_cons_succ, byteAt_cons_zero]
  have hb23 : byteAt (navPvtPayloadSpec iTOW year month day hour minute sec valid
      fixType flags numSV lon lat gSpeed) 23 = numSV := by
    simp [navPvtPayloadSpec, byteAt_leb4_skip, byteAt_leb2_skip, byteAt_rep8_skip,
      byteAt_cons_succ, byteAt_cons_zero]
  rw [parse_nav_pvt, if_pos hlen]
  refine congrArg Except.ok ?_
  simp only [navFix, hU0, hU16, hI24, hI28, hI60, hb6, hb7, hb8, hb9, hb10, hb11,
    hb20, hb21, hb23]

theorem readLoop_nil (fuel : Nat) : readLoop fuel [] = (none, []) := by
  cases fuel with
  | zero => rfl
  | succ n => exact readLoop_short n [] (by simp)

/-- C1: encoding any class and id byte with any payload of at most 65535
bytes, then feeding the produced frame to read_packet starting from an empty
buffer, yields exactly the original triple and consumes the whole frame. -/
theorem claim_C1_roundtrip (c i : Nat) (p : List Nat)
    (hc : c ≤ 255) (hi : i ≤ 255) (hp : p.length ≤ 65535)
    (hpb : ∀ x ∈ p, x ≤ 255) :
    read_packet (ubx_packet c i p) [] = (some (c, i, p), []) := by
  rw [read_packet, List.nil_append]
  have h := readLoop_packet ((ubx_packet c i p).length) c i p [] hp
  rw [List.append_nil] at h
  exact h

/-- Witness for C1 at a concrete frame. -/
theorem claim_C1_roundtrip_witness :
    read_packet (ubx_packet 1 7 [10, 20, 30]) [] = (some (1, 7, [10, 20, 30]), []) :=
  claim_C1_roundtrip 1 7 [10, 20, 30] (by decide) (by decide) (by decide) (by decide)

/-- C5 (amended): splitting one valid encoded frame across any number of
feed calls, starting from an empty buffer and with no interleaved noise,
yields exactly that frame and ends with an empty buffer; in this setting a
sync pair straddling a call boundary is preserved, because every
intermediate buffer is a proper front part of the frame. With eight or more
sync-free noise bytes buffered ahead of a straddling sync byte the whole
buffer is cleared instead and the frame is lost (see the counterexample). -/
theorem claim_C5_split_frame (c i : Nat) (p : List Nat) (cs : List (List Nat))
    (hp : p.length ≤ 65535) (hjoin : cs.flatten = ubx_packet c i p) :
    feedAll cs [] = ([(c, i, p)], []) := by
  have hlen0 : 0 < (ubx_packet c i p).length := by rw [ubx_packet_length]; omega
  have hpre : (ubx_packet c i p).take 0 ++ cs.flatten = ubx_packet c i p := by
    rw [List.take_zero, List.nil_append]; exact hjoin
  have h := feedAll_packet c i p hp cs 0 hlen0 hpre
  rw [List.take_zero] at h
  exact h

/-- Witness for the amended C5: the sync pair straddles the boundary of the
first two feed calls and the frame is still yielded. -/
theorem claim_C5_split_frame_witness :
    feedAll [[181], [98, 1, 7, 0, 0], [8, 25]] [] = ([(1, 7, [])], []) :=
  claim_C5_split_frame 1 7 [] [[181], [98, 1, 7, 0, 0], [8, 25]] (by decide) (by decide)

/-- C5 is false as stated: seven sync-free noise bytes followed by the first
sync byte make an eight-byte buffer without a complete sync pair; the first
call clears it, losing the straddling sync byte, and the valid frame split
across the two calls is never yielded (the claim requires exactly one). -/
theorem claim_C5_counterexample :
    [[0, 0, 0, 0, 0, 0, 0, 181], [98, 1, 7, 0, 0, 8, 25]].flatten =
      [0, 0, 0, 0, 0, 0, 0] ++ ubx_packet 1 7 [] ∧
    (feedAll [[0, 0, 0, 0, 0, 0, 0, 181], [98, 1, 7, 0, 0, 8, 25]] []).1 = [] := by
  decide

/-- C6: flipping any single payload or checksum byte of a valid frame makes
the assembler silently drop that candidate (no frame yielded, no error
channel involved), after which the next valid frame in the stream is still
yielded. Position m plus 6 ranges over the payload and checksum bytes. -/
theorem claim_C6_checksum_reject (c i c2 i2 m v : Nat) (p p2 : List Nat)
    (hp : p.length ≤ 65535) (hpb : ∀ x ∈ p, x ≤ 255)
    (hm : m < p.length + 2) (hv : v ≤ 255)
    (hne : v ≠ byteAt (ubx_packet c i p) (m + 6))
    (hp2 : p2.length ≤ 65535) :
    read_packet ((ubx_packet c i p).set (m + 6) v) [] = (none, []) ∧
    read_packet ((ubx_packet c i p).set (m + 6) v ++ ubx_packet c2 i2 p2) [] =
      (some (c2, i2, p2), []) := by
  have hlenflip : ((ubx_packet c i p).set (m + 6) v).length = 8 + p.length := by
    rw [List.length_set, ubx_packet_length]
  constructor
  · rw [read_packet, List.nil_append]
    have h := readLoop_flip (((ubx_packet c i p).set (m + 6) v).length) c i p m v []
      hp hpb hm hv hne
    rw [List.append_nil] at h
    rw [h]
    exact readLoop_nil _
  · rw [read_packet, List.nil_append]
    have hL : ((ubx_packet c i p).set (m + 6) v ++ ubx_packet c2 i2 p2).length =
        (8 + p.length) + (ubx_packet c2 i2 p2).length := by
      simp [hlenflip]
    rw [hL]
    have hstep := readLoop_flip (7 + p.length + (ubx_packet c2 i2 p2).length + 1) c i p m v
      (ubx_packet c2 i2 p2) hp hpb hm hv hne
    rw [show 8 + p.length + (ubx_packet c2 i2 p2).length + 1 =
      7 + p.length + (ubx_packet c2 i2 p2).length + 1 + 1 by omega]
    rw [hstep]
    have h2 := readLoop_packet (7 + p.length + (ubx_packet c2 i2 p2).length) c2 i2 p2 [] hp2
    rw [List.append_nil] at h2
    exact h2

/-- Witness for C6: payload byte of a one-byte-payload frame flipped from 0
to 1; the candidate is dropped and the following frame is still decoded. -/
theorem claim_C6_checksum_reject_witness :
    read_packet ((ubx_packet 1 7 [0]).set 6 1) [] = (none, []) ∧
    read_packet ((ubx_packet 1 7 [0]).set 6 1 ++ ubx_packet 2 3 []) [] =
      (some (2, 3, []), []) :=
  claim_C6_checksum_reject 1 7 2 3 0 1 [0] [] (by decide) (by decide) (by decide)
    (by decide) (by decide) (by decide)

/-- C9 (amended): a feed call whose combined buffer holds at least eight
bytes and no sync pair anywhere drops the whole buffer and yields nothing;
a combined buffer of fewer than eight bytes is instead retained unchanged
(regardless of sync content), also yielding nothing. -/
theorem claim_C9_nosync_drop (buf chunk : List Nat) :
    (8 ≤ (buf ++ chunk).length → findSync (buf ++ chunk) = none →
      read_packet chunk buf = (none, [])) ∧
    ((buf ++ chunk).length < 8 → read_packet chunk buf = (none, buf ++ chunk)) := by
  constructor
  · intro h8 hf
    rw [read_packet]
    exact readLoop_noSync _ _ h8 hf
  · intro h8
    rw [read_packet]
    exact readLoop_short _ _ h8

/-- Witness for the amended C9 at concrete buffers. -/
theorem claim_C9_nosync_drop_witness :
    read_packet [] [9, 9, 9, 9, 9, 9, 9, 9] = (none, []) ∧
    read_packet [] [1, 2, 3] = (none, [1, 2, 3]) :=
  ⟨(claim_C9_nosync_drop [9, 9, 9, 9, 9, 9, 9, 9] []).1 (by decide) (by decide),
   (claim_C9_nosync_drop [1, 2, 3] []).2 (by decide)⟩

/-- C9 is false as stated: a three-byte buffer without the sync marker is
retained by the feed call, not dropped to empty. -/
theorem claim_C9_counterexample :
    findSync [1, 2, 3] = none ∧ read_packet [] [1, 2, 3] = (none, [1, 2, 3]) ∧
      ([1, 2, 3] : List Nat) ≠ [] := by
  decide

/-- C10: a single read_packet call returns at most one validated triple (its
return type carries at most one); with two complete valid frames already
buffered, the call yields only the first and leaves the second whole in the
buffer, and a further call with no new serial input yields the second. -/
theorem claim_C10_one_frame_per_call (c1 i1 c2 i2 : Nat) (p1 p2 : List Nat)
    (hp1 : p1.length ≤ 65535) (hp2 : p2.length ≤ 65535) :
    read_packet [] (ubx_packet c1 i1 p1 ++ ubx_packet c2 i2 p2) =
      (some (c1, i1, p1), ubx_packet c2 i2 p2) ∧
    read_packet [] (ubx_packet c2 i2 p2) = (some (c2, i2, p2), []) := by
  constructor
  · rw [read_packet, List.append_nil]
    exact readLoop_packet _ c1 i1 p1 _ hp1
  · rw [read_packet, List.append_nil]
    have h := readLoop_packet ((ubx_packet c2 i2 p2).length) c2 i2 p2 [] hp2
    rw [List.append_nil] at h
    exact h

/-- Witness for C10 with two concrete frames buffered at once. -/
theorem claim_C10_one_frame_per_call_witness :
    read_packet [] (ubx_packet 1 7 [] ++ ubx_packet 2 3 []) =
      (some (1, 7, []), ubx_packet 2 3 []) ∧
    read_packet [] (ubx_packet 2 3 []) = (some (2, 3, []), []) :=
  claim_C10_one_frame_per_call 1 7 2 3 [] [] (by decide) (by decide)

/-- C8: the NAV-PVT decoder fails with the payload-length error on every
payload whose length is not exactly 92 bytes, and a Fix value is returned
only for payloads of exactly 92 bytes, so no partly filled record can
be produced. -/
theorem claim_C8_wrong_length (now : ℚ) (p : List Nat) :
    (p.length ≠ 92 → parse_nav_pvt now p = .error "NAV-PVT payload len != 92") ∧
    (∀ f : Fix, parse_nav_pvt now p = .ok f → p.length = 92) := by
  constructor
  · intro h
    rw [parse_nav_pvt, if_neg h]
  · intro f hf
    by_contra h
    rw [parse_nav_pvt, if_neg h] at hf
    exact absurd hf (by simp)

/-- Witness for C8 at the 91 and 93 byte payloads named by the spec. -/
theorem claim_C8_wrong_length_witness :
    parse_nav_pvt 0 (List.replicate 91 0) = .error "NAV-PVT payload len != 92" ∧
    parse_nav_pvt 0 (List.replicate 93 0) = .error "NAV-PVT payload len != 92" :=
  ⟨(claim_C8_wrong_length 0 (List.replicate 91 0)).1 (by decide),
   (claim_C8_wrong_length 0 (List.replicate 93 0)).1 (by decide)⟩

/-- C7: when a NAV-PVT frame is decoded at time now, the fix is forwarded to
the bus exactly when at least 1.0 second has passed since last_pub (whose
initial value 0.0 encodes that nothing was published yet, any real clock
value being at least 1.0); on a forward, last_pub is updated to now, and
otherwise it is unchanged. The two concrete spacings of the claim follow:
fixes 0.3 seconds apart publish once, 1.2 seconds apart publish twice. -/
theorem claim_C7_publish_throttle (now lastPub : ℚ) (lf : Option Fix) (p : List Nat)
    (hp : p.length = 92) :
    mainStep now (ubx_packet CLASS_NAV ID_NAV_PVT p)
        { buf := [], lastPub := lastPub, lastFix := lf } =
      if 1 ≤ now - lastPub then
        .ok { buf := [], lastPub := now, lastFix := some (navFix now p) }
          [Pub.fixPub (navFix now p)]
      else
        .ok { buf := [], lastPub := lastPub, lastFix := some (navFix now p) } [] := by
  have hp65 : p.length ≤ 65535 := by omega
  have hr : read_packet (ubx_packet CLASS_NAV ID_NAV_PVT p) [] =
      (some (CLASS_NAV, ID_NAV_PVT, p), []) := by
    rw [read_packet, List.nil_append]
    have h := readLoop_packet ((ubx_packet CLASS_NAV ID_NAV_PVT p).length)
      CLASS_NAV ID_NAV_PVT p [] hp65
    rw [List.append_nil] at h
    exact h
  have hparse : parse_nav_pvt now p = .ok (navFix now p) := by
    rw [parse_nav_pvt, if_pos hp]
  have hts : (navFix now p).timestamp = now := rfl
  rw [mainStep]
  dsimp only
  rw [hr]
  dsimp only
  rw [if_pos ⟨rfl, rfl⟩, hparse]
  dsimp only
  by_cases hcase : 1 ≤ now - lastPub
  · rw [if_pos hcase, if_pos hcase]
    dsimp only
    rw [hts]
    rw [if_neg (by simp)]
    rfl
  · rw [if_neg hcase, if_neg hcase]
    dsimp only
    rw [hts]
    rw [if_neg (by simp)]
    rfl

/-- Witness for C7: a first fix at time 10 from a fresh state publishes; a
second fix 0.3 seconds later does not (one publish total); a second fix 1.2
seconds later does (two publishes total). -/
theorem claim_C7_publish_throttle_witness :
    mainStep 10 (ubx_packet CLASS_NAV ID_NAV_PVT (List.replicate 92 0))
        { buf := [], lastPub := 0, lastFix := none } =
      .ok { buf := [], lastPub := 10, lastFix := some (navFix 10 (List.replicate 92 0)) }
        [Pub.fixPub (navFix 10 (List.replicate 92 0))] ∧
    mainStep 10.3 (ubx_packet CLASS_NAV ID_NAV_PVT (List.replicate 92 0))
        { buf := [], lastPub := 10, lastFix := some (navFix 10 (List.replicate 92 0)) } =
      .ok { buf := [], lastPub := 10,
            lastFix := some (navFix 10.3 (List.replicate 92 0)) } [] ∧
    mainStep 11.2 (ubx_packet CLASS_NAV ID_NAV_PVT (List.replicate 92 0))
        { buf := [], lastPub := 10, lastFix := some (navFix 10 (List.replicate 92 0)) } =
      .ok { buf := [], lastPub := 11.2,
            lastFix := some (navFix 11.2 (List.replicate 92 0)) }
        [Pub.fixPub (navFix 11.2 (List.replicate 92 0))] := by
  refine ⟨?_, ?_, ?_⟩
  · have h := claim_C7_publish_throttle 10 0 none (List.replicate 92 0) (by decide)
    rw [if_pos (by norm_num)] at h
    exact h
  · have h := claim_C7_publish_throttle 10.3 10
      (some (navFix 10 (List.replicate 92 0))) (List.replicate 92 0) (by decide)
    rw [if_neg (by norm_num)] at h
    exact h
  · have h := claim_C7_publish_throttle 11.2 10
      (some (navFix 10 (List.replicate 92 0))) (List.replicate 92 0) (by decide)
    rw [if_pos (by norm_num)] at h
    exact h

/-- C3 fails on the code: in a cycle where no packet is assembled (here no
bytes at all arrive), the continue statement is reached before the
heartbeat check, so with a last fix decoded at time 0 and the cycle at time
100 (stale far beyond 5.0 seconds) no degraded liveness signal is published,
although the claim requires one on exactly such cycles. -/
theorem claim_C3_heartbeat_skipped :
    mainStep 100 []
        { buf := [], lastPub := 6, lastFix := some (navFix 0 (List.replicate 92 0)) } =
      .ok { buf := [], lastPub := 6, lastFix := some (navFix 0 (List.replicate 92 0)) }
        [] := rfl

set_option maxRecDepth 8000

/-- C4 fails on the code: a checksum-valid frame with class 0x01, id 0x07
and a 91-byte payload is assembled and handed to parse_nav_pvt, whose
length error is not caught anywhere in main (only KeyboardInterrupt is),
so the read loop terminates instead of proceeding to the next frame. -/
theorem claim_C4_decode_crash :
    mainStep 100 (ubx_packet CLASS_NAV ID_NAV_PVT (List.replicate 91 0))
        { buf := [], lastPub := 0, lastFix := none } =
      .crash "NAV-PVT payload len != 92" := rfl

set_option maxRecDepth 512

/-- Witness for C2 at the section 8.5 test vector: lat 51.3779263 degrees,
lon -3.1237549 degrees, speed 5.556 m/s (20.0016 km/h), fix_ok and time_ok
set, 8 satellites. -/
theorem claim_C2_nav_pvt_decode_witness :
    parse_nav_pvt 0 (navPvtPayloadSpec 0 2024 12 24 23 59 0 3 3 1 8
        (-31237549) 513779263 5556) =
      .ok { iTOW := 0, year := 2024, month := 12, day := 24, hour := 23, minute := 59,
            sec := 0, valid := 3, fixType := 3, flags := 1, numSV := 8,
            lon := ((-31237549 : Int) : ℚ) / 10000000,
            lat := ((513779263 : Int) : ℚ) / 10000000,
            speed_mps := ((5556 : Int) : ℚ) / 1000,
            speed_kmh := ((5556 : Int) : ℚ) / 1000 * 3.6,
            fix_ok := true, time_ok := true, timestamp := 0 } := by
  have h := claim_C2_nav_pvt_decode 0 0 2024 12 24 23 59 0 3 3 1 8
    (-31237549) 513779263 5556 (by norm_num) (by norm_num) (by norm_num) (by norm_num)
    (by norm_num) (by norm_num) (by norm_num) (by norm_num)
  exact h

end Beacon
